import Mathlib

/-!
Verification of the ParaPR session-supervision engine (src/server.py) against
its specification. The Python source is shallowly embedded: pure helpers
become Lean functions, the regex pattern families become an executable token
matcher, external effects (tmux calls, the Azure OpenAI classifier) become
explicit oracle parameters, and one poll iteration of `stream_output` becomes
a state-transformer over an explicit state record.
-/

/-- Python whitespace class for `\s` and `str.strip()` (ASCII range):
space, tab, newline, carriage return, vertical tab, form feed. -/
def isWsChar (c : Char) : Bool :=
  c = ' ' || c = '\t' || c = '\n' || c = '\r' || c = Char.ofNat 11 || c = Char.ofNat 12

/-- Python `str.lower()` (the source only ever lowercases ASCII text). -/
def pyLower (s : String) : String :=
  ⟨s.data.map Char.toLower⟩

/-- Bool test that a char list starts with the given pattern list. -/
def startsList : List Char → List Char → Bool
  | [], _ => true
  | _ :: _, [] => false
  | p :: ps, c :: cs => if p = c then startsList ps cs else false

/-- Python `needle in hay` substring containment. -/
def inStr (needle hay : String) : Bool :=
  go needle.data hay.data
where
  go (n : List Char) : List Char → Bool
    | [] => startsList n []
    | c :: rest => startsList n (c :: rest) || go n rest

/-- Python `s.startswith(p)`. -/
def startswith (s p : String) : Bool :=
  startsList p.data s.data

/-- Python slice `s[n:]` (by character, as Python indexes by code point). -/
def strSlice (s : String) (n : Nat) : String :=
  ⟨s.data.drop n⟩

/-- Python `len(s)`. -/
def strLen (s : String) : Nat :=
  s.data.length

/-- Python `s.strip()`: drop whitespace from both ends. -/
def pyStrip (s : String) : String :=
  ⟨((s.data.dropWhile isWsChar).reverse.dropWhile isWsChar).reverse⟩

/-- One token of the tiny regex fragment the source's patterns use:
a literal character, `\s*`, or a group of literal alternatives `(?:a|b|c)`. -/
inductive RTok where
  | lit : Char → RTok
  | ws : RTok
  | alt : List String → RTok
deriving Repr

/-- Case-optional character comparison (`re.IGNORECASE` folds both sides). -/
def eqCI (ci : Bool) (a b : Char) : Bool :=
  if ci then a.toLower = b.toLower else a = b

/-- Consume a literal alternative from the front of the input, if it is there. -/
def eatLit (ci : Bool) : List Char → List Char → Option (List Char)
  | [], s => some s
  | _ :: _, [] => none
  | p :: ps, c :: cs => if eqCI ci p c then eatLit ci ps cs else none

/-- Match a token list at the very start of the input. `\s*` is consumed
greedily, which agrees with the regex semantics because in every pattern of
the source a `\s*` is followed by a non-whitespace literal. -/
def matchToks (ci : Bool) : List RTok → List Char → Bool
  | [], _ => true
  | RTok.lit _ :: _, [] => false
  | RTok.lit p :: ts, c :: cs => eqCI ci p c && matchToks ci ts cs
  | RTok.ws :: ts, s => matchToks ci ts (s.dropWhile isWsChar)
  | RTok.alt alts :: ts, s =>
      alts.any fun a =>
        match eatLit ci a.data s with
        | some rest => matchToks ci ts rest
        | none => false

/-- `re.search`: match the token list at some position of the input. -/
def rsearch (ci : Bool) (toks : List RTok) : List Char → Bool
  | [] => matchToks ci toks []
  | c :: rest => matchToks ci toks (c :: rest) || rsearch ci toks rest

/-- `re.search` over a string. -/
def reSearch (ci : Bool) (toks : List RTok) (s : String) : Bool :=
  rsearch ci toks s.data

/-- A run of literal-character tokens. -/
def litToks (s : String) : List RTok :=
  s.data.map RTok.lit

/-- An apostrophe character, used in one pattern of the source. -/
def apos : String :=
  (Char.ofNat 39).toString

/-- PERMISSION_PATTERNS of the source (regexes for auto-acceptable prompts). -/
def PERMISSION_PATTERNS : List (List RTok) := [
  litToks "Do you want to proceed?",
  litToks "❯" ++ [RTok.ws] ++ litToks "1." ++ [RTok.ws] ++ litToks "Yes",
  litToks ("Yes, and don" ++ apos ++ "t ask again"),
  litToks "Allow this action?",
  litToks "Proceed with this",
  litToks "[Y/n]",
  litToks "(y/N)",
  litToks "Press Enter to continue"]

/-- HUMAN_NEEDED_PATTERNS of the source (regexes for prompts that need a
human decision), matched case-insensitively. -/
def HUMAN_NEEDED_PATTERNS : List (List RTok) := [
  litToks "Type here to tell Claude",
  litToks "3." ++ [RTok.ws] ++ litToks "Type here",
  litToks "which " ++ [RTok.alt ["approach", "option", "method", "one"]],
  [RTok.alt ["choose", "select", "pick"]] ++ litToks " " ++ [RTok.alt ["one", "between", "from"]],
  litToks "What should",
  litToks "How would you like",
  litToks "Do you want me to",
  litToks "Should I",
  litToks "multiple " ++ [RTok.alt ["options", "approaches", "ways"]]]

/-- `is_permission_prompt` of the source: any PERMISSION_PATTERNS match. -/
def is_permission_prompt (output : String) : Bool :=
  PERMISSION_PATTERNS.any fun p => reSearch false p output

/-- `needs_human_decision` of the source: any HUMAN_NEEDED_PATTERNS match,
case-insensitive. -/
def needs_human_decision (output : String) : Bool :=
  HUMAN_NEEDED_PATTERNS.any fun p => reSearch true p output

/-- `SafetyCheckResponse` of the source. -/
structure SafetyCheckResponse where
  needs_clarification : Bool
  safe_to_continue : Bool
  reason : String
deriving Repr, DecidableEq

/-- Oracle for the state and behaviour of the external classification service
during one call path: `none` means no client is configured (`llm_client` is
None); `some (Except.ok r)` means the service returned a well-formed result
`r`; `some (Except.error e)` means the call raised (transport failure, or a
malformed response failing `json.loads` / model validation), with `e` the
exception text. -/
def LlmOracle : Type :=
  Option (Except String SafetyCheckResponse)

/-- `check_safety` of the source. The `ticket` argument and the buffered
context lines only ever flow into the prompt of the external call, which the
oracle abstracts, so the oracle's answer stands for the whole `try` body. -/
def check_safety (llm : LlmOracle) (ticket output : String) : SafetyCheckResponse :=
  match ticket, llm with
  | _, none =>
      { needs_clarification := inStr "?" output || inStr "would you like" (pyLower output)
        safe_to_continue := !(["delete", "rm -rf", "force push", "drop table"].any fun p => inStr p (pyLower output))
        reason := "Pattern match (no LLM configured)" }
  | _, some (Except.ok r) => r
  | _, some (Except.error e) =>
      { needs_clarification := inStr "?" output || inStr "would you like" (pyLower output)
        safe_to_continue := true
        reason := "Safety check failed: " ++ e }

/-- Spec-side formula (§4.2): `needsClarification` = delta contains "?" or
the phrase "would you like" (case-insensitive). Stated from the spec's words,
to be compared against `check_safety`. -/
def specNeedsClarification (delta : String) : Bool :=
  inStr "?" delta || inStr "would you like" (pyLower delta)

/-- Spec-side formula (§4.2): the delta contains one of the fixed
destructive-keyword substrings, case-insensitive. Stated from the spec's
words, to be compared against `check_safety`. -/
def specDangerous (delta : String) : Bool :=
  ["delete", "rm -rf", "force push", "drop table"].any fun p => inStr p (pyLower delta)

/-- Python `s.split(sep)` for the one-character separator "\n" used by the
source (`new_content.split("\n")`), keeping empty parts as Python does. -/
def pySplitNl (s : String) : List String :=
  go s.data []
where
  go : List Char → List Char → List String
    | [], acc => [⟨acc.reverse⟩]
    | c :: rest, acc => if c = '\n' then ⟨acc.reverse⟩ :: go rest [] else go rest (c :: acc)

/-- `SessionState` of the source (informational lifecycle enum). -/
inductive SessionState where
  | STARTING | SPECIFY | CLARIFY_NEEDED | PLANNING | PLAN_REVIEW
  | TASKING | IMPLEMENTING | DONE | ERROR
deriving Repr, DecidableEq

/-- `ClaudeMode` of the source. -/
inductive ClaudeMode where
  | PLANNING | AUTO_ACCEPT
deriving Repr, DecidableEq

/-- `SessionStatus` of the source, with the pydantic defaults. The
`updated_at` timestamp is omitted: wall-clock time is outside the embedding
and no claim mentions it. -/
structure SessionStatus where
  ticket : String
  state : SessionState := SessionState.STARTING
  message : Option String := none
  linear_pulled : Bool := false
  specify_done : Bool := false
  clarify_done : Bool := false
  plan_done : Bool := false
  tasks_done : Bool := false
  implement_done : Bool := false
  auto_accept : Bool := false
  needs_attention : Bool := false
  linear_title : String := ""
  linear_description : String := ""
  in_grid : Bool := false
  claude_mode : ClaudeMode := ClaudeMode.PLANNING
deriving Repr, DecidableEq

/-- The in-memory `sessions` registry: ticket id to session record. -/
def Sessions : Type :=
  String → Option SessionStatus

/-- Write one record into the registry (`sessions[ticket] = s`). -/
def setSession (m : Sessions) (t : String) (s : SessionStatus) : Sessions :=
  fun k => if k = t then some s else m k

/-- One call to the TerminalAdapter made by the accept sequence:
`clearLine t` is `tmux send-keys -t t C-u`, `sendLiteral t x` is
`tmux send-keys -t t -l x`, and `submit t` is `tmux send-keys -t t Enter`. -/
inductive AdapterCall where
  | clearLine : String → AdapterCall
  | sendLiteral : String → String → AdapterCall
  | submit : String → AdapterCall
deriving Repr, DecidableEq

/-- `auto_accept_if_safe` of the source. `send1 send2 send3` are oracles for
whether each of the three tmux calls succeeds (`subprocess.run(check=True)`
raising counts as failure); a failed call is still in the emitted trace, the
calls after it are not, and the exception handler returns False. The result
is (return value, trace of adapter calls). -/
def auto_accept_if_safe (sess : Sessions) (llm : LlmOracle)
    (send1 send2 send3 : Bool) (ticket output : String) : Bool × List AdapterCall :=
  match sess ticket with
  | none => (false, [])
  | some s =>
    if !s.auto_accept then (false, [])
    else if !is_permission_prompt output then (false, [])
    else if needs_human_decision output then (false, [])
    else
      let safety := check_safety llm ticket output
      if safety.safe_to_continue && !safety.needs_clarification then
        if !send1 then (false, [AdapterCall.clearLine ticket])
        else if !send2 then (false, [AdapterCall.clearLine ticket, AdapterCall.sendLiteral ticket "1"])
        else if !send3 then (false, [AdapterCall.clearLine ticket, AdapterCall.sendLiteral ticket "1", AdapterCall.submit ticket])
        else (true, [AdapterCall.clearLine ticket, AdapterCall.sendLiteral ticket "1", AdapterCall.submit ticket])
      else (false, [])

/-- `MAX_BUFFER_LINES` of the source. -/
def MAX_BUFFER_LINES : Nat := 200

/-- Python slice `l[-n:]`: the last `n` elements (the whole list when it is
shorter). -/
def lastN (n : Nat) (l : List α) : List α :=
  l.drop (l.length - n)

/-- The buffer update of `stream_output`: extend with the new lines, then
keep only the last `MAX_BUFFER_LINES`
(`output_buffers[ticket] = output_buffers[ticket][-MAX_BUFFER_LINES:]`). -/
def appendBounded (buf lines : List String) : List String :=
  lastN MAX_BUFFER_LINES (buf ++ lines)

/-- The JSON payload `stream_output` sends over the WebSocket. -/
structure WsEvent where
  ticket : String
  content : String
  needs_attention : Bool
  auto_accepted : Bool
deriving Repr, DecidableEq

/-- The mutable state one `stream_output` loop iteration reads and writes:
the local `last_output`, this session's entry of `output_buffers`, and the
`sessions` registry. -/
structure TickState where
  last_output : String
  buffer : List String
  sess : Sessions

/-- What one poll iteration produced: the new state, the computed delta
(`new_content`, "" when the snapshot is unchanged), the text handed to
`auto_accept_if_safe` (none when it was not invoked), the text handed to the
attention-pass `check_safety` (none when it was not invoked), the adapter
calls made, and the WebSocket event sent. -/
structure TickOut where
  state : TickState
  delta : String
  acceptInput : Option String
  attnInput : Option String
  calls : List AdapterCall
  event : Option WsEvent

/-- One non-exceptional iteration of the polling loop in `stream_output`,
given the snapshot `current_output` the adapter returned. Mirrors the body:
when the snapshot changed, `new_content` is the suffix after the stored
snapshot when that is a prefix, the whole snapshot otherwise; when the
stripped delta is non-empty the buffer is extended and bounded,
`auto_accept_if_safe` runs on `current_output`, `needs_attention` is updated
(cleared on auto-accept, else set from `check_safety` on `new_content`,
both only when the ticket is registered), and the event is sent reading
`needs_attention` back with a default record as fallback; `last_output`
always becomes `current_output`. -/
def stream_output_tick (llm : LlmOracle) (send1 send2 send3 : Bool)
    (st : TickState) (ticket current_output : String) : TickOut :=
  if current_output = st.last_output then
    { state := st, delta := "", acceptInput := none, attnInput := none,
      calls := [], event := none }
  else
    let new_content :=
      if startswith current_output st.last_output
      then strSlice current_output (strLen st.last_output)
      else current_output
    if pyStrip new_content = "" then
      { state := { st with last_output := current_output }, delta := new_content,
        acceptInput := none, attnInput := none, calls := [], event := none }
    else
      let buffer1 := appendBounded st.buffer (pySplitNl new_content)
      let ar := auto_accept_if_safe st.sess llm send1 send2 send3 ticket current_output
      let sess1 :=
        if ar.1 then
          match st.sess ticket with
          | some s => setSession st.sess ticket { s with needs_attention := false }
          | none => st.sess
        else
          match st.sess ticket with
          | some s => setSession st.sess ticket
              { s with needs_attention := (check_safety llm ticket new_content).needs_clarification }
          | none => st.sess
      let na :=
        match sess1 ticket with
        | some s => s.needs_attention
        | none => ({ ticket := ticket } : SessionStatus).needs_attention
      { state := { last_output := current_output, buffer := buffer1, sess := sess1 },
        delta := new_content,
        acceptInput := some current_output,
        attnInput := if ar.1 then none else some new_content,
        calls := ar.2,
        event := some { ticket := ticket, content := new_content,
                        needs_attention := na, auto_accepted := ar.1 } }

/-- `update_stage` of the source (`POST /session/t/stage`): lazily upsert a
default record, set the named stage flag to `done` when the stage name is
known, answer ok. -/
def update_stage (sess : Sessions) (ticket stage : String) (done : Bool) :
    Sessions × Bool :=
  let s0 := match sess ticket with
            | some s => s
            | none => { ticket := ticket }
  let s1 :=
    if stage = "linear" then { s0 with linear_pulled := done }
    else if stage = "specify" then { s0 with specify_done := done }
    else if stage = "clarify" then { s0 with clarify_done := done }
    else if stage = "plan" then { s0 with plan_done := done }
    else if stage = "tasks" then { s0 with tasks_done := done }
    else if stage = "implement" then { s0 with implement_done := done }
    else s0
  (setSession sess ticket s1, true)

/-- `set_linear_info` of the source (`POST /session/t/linear-info`): lazily
upsert, store the title and description, answer ok. -/
def set_linear_info (sess : Sessions) (ticket title description : String) :
    Sessions × Bool :=
  let s0 := match sess ticket with
            | some s => s
            | none => { ticket := ticket }
  (setSession sess ticket { s0 with linear_title := title, linear_description := description }, true)

/-- `set_claude_mode` of the source (`POST /session/t/mode`): lazily upsert,
then set both `claude_mode` and `auto_accept` from the mode string ("auto_accept"
turns auto-accept on, anything else selects PLANNING), answering ok with the
mode echoed. -/
def set_claude_mode (sess : Sessions) (ticket mode : String) :
    Sessions × (Bool × String) :=
  let s0 := match sess ticket with
            | some s => s
            | none => { ticket := ticket }
  let s1 :=
    if mode = "auto_accept"
    then { s0 with claude_mode := ClaudeMode.AUTO_ACCEPT, auto_accept := true }
    else { s0 with claude_mode := ClaudeMode.PLANNING, auto_accept := false }
  (setSession sess ticket s1, (true, mode))

/-- The six stage-completion flags of a session record, as selectors. -/
inductive StageFlag where
  | linear_pulled | specify_done | clarify_done | plan_done | tasks_done | implement_done
deriving Repr, DecidableEq

/-- Read one stage-completion flag. -/
def getStage (f : StageFlag) (s : SessionStatus) : Bool :=
  match f with
  | StageFlag.linear_pulled => s.linear_pulled
  | StageFlag.specify_done => s.specify_done
  | StageFlag.clarify_done => s.clarify_done
  | StageFlag.plan_done => s.plan_done
  | StageFlag.tasks_done => s.tasks_done
  | StageFlag.implement_done => s.implement_done

/-- A list is a Bool-prefix of itself. -/
theorem startsList_self : ∀ l : List Char, startsList l l = true
  | [] => rfl
  | c :: cs => by simp [startsList, startsList_self cs]

/-- Python `s.startswith(s)` holds. -/
theorem startswith_self (s : String) : startswith s s = true :=
  startsList_self s.data

/-- Dropping a string's own length leaves the empty string. -/
theorem strSlice_strLen (s : String) : strSlice s (strLen s) = "" := by
  unfold strSlice strLen
  rw [List.drop_length]

/-- A bounded append never exceeds the buffer capacity. -/
theorem appendBounded_length_le (buf lines : List String) :
    (appendBounded buf lines).length ≤ MAX_BUFFER_LINES := by
  simp [appendBounded, lastN, MAX_BUFFER_LINES]
  omega

/-- Claim C1, counterexample: at the exact scenario the claim describes — an
AutoAccept-mode session, the delta "Proceed with this change? [Y/n]" (a
permission prompt, no human-decision match, no destructive-keyword hit), no
classification service configured — `auto_accept_if_safe` performs zero
TerminalAdapter calls and returns false, not the claimed three calls: the
fallback heuristic sets needsClarification because the delta contains "?". -/
theorem c1_counterexample :
    is_permission_prompt "Proceed with this change? [Y/n]" = true
    ∧ needs_human_decision "Proceed with this change? [Y/n]" = false
    ∧ specDangerous "Proceed with this change? [Y/n]" = false
    ∧ auto_accept_if_safe
        (fun k => if k = "t1" then some { ticket := "t1", auto_accept := true } else none)
        none true true true "t1" "Proceed with this change? [Y/n]" = (false, []) := by decide

/-- Claim C1 (amended): for every session that exists and is in AutoAccept
mode, given the snapshot-turned-delta "Proceed with this change? [Y/n]" with
no classification service configured, the poll tick performs no
TerminalAdapter call, the auto-accept does not fire, and — because the
fallback heuristic reports needsClarification for the "?" in the text — the
attention pass sets the session's needs_attention flag to true. -/
theorem c1_scenario_a_not_accepted (sess : Sessions) (send1 send2 send3 : Bool)
    (buf : List String) (t : String) (s : SessionStatus)
    (hs : sess t = some s) (ha : s.auto_accept = true) :
    (stream_output_tick none send1 send2 send3 ⟨"", buf, sess⟩ t "Proceed with this change? [Y/n]").calls = []
    ∧ (stream_output_tick none send1 send2 send3 ⟨"", buf, sess⟩ t "Proceed with this change? [Y/n]").state.sess t
        = some { s with needs_attention := true }
    ∧ (stream_output_tick none send1 send2 send3 ⟨"", buf, sess⟩ t "Proceed with this change? [Y/n]").event
        = some { ticket := t, content := "Proceed with this change? [Y/n]",
                 needs_attention := true, auto_accepted := false } := by
  have hp : is_permission_prompt "Proceed with this change? [Y/n]" = true := by decide
  have hh : needs_human_decision "Proceed with this change? [Y/n]" = false := by decide
  have hcs : ∀ tk : String, (check_safety none tk "Proceed with this change? [Y/n]").needs_clarification = true :=
    fun tk => rfl
  have haa : auto_accept_if_safe sess none send1 send2 send3 t "Proceed with this change? [Y/n]" = (false, []) := by
    unfold auto_accept_if_safe
    rw [hs]
    simp [ha, hp, hh, hcs t]
  have hne : ¬ ("Proceed with this change? [Y/n]" = ("" : String)) := by decide
  have hsw : startswith "Proceed with this change? [Y/n]" "" = true := by decide
  have hslice : strSlice "Proceed with this change? [Y/n]" (strLen "") = "Proceed with this change? [Y/n]" := by decide
  have hstrip : ¬ (pyStrip "Proceed with this change? [Y/n]" = "") := by decide
  simp [stream_output_tick, hne, hsw, hslice, hstrip, haa, hs, hcs, setSession]

/-- Claim C1, witness: the amended theorem applied to a concrete
AutoAccept-mode session. -/
theorem c1_witness :
    (stream_output_tick none true true true
        ⟨"", [], fun k => if k = "t1" then some { ticket := "t1", auto_accept := true } else none⟩
        "t1" "Proceed with this change? [Y/n]").calls = [] :=
  (c1_scenario_a_not_accepted (fun k => if k = "t1" then some { ticket := "t1", auto_accept := true } else none)
    true true true [] "t1" { ticket := "t1", auto_accept := true } (by decide) (by decide)).1

/-- Claim C2: for every session, classifier-oracle behaviour and adapter
behaviour, a delta that matches both a permission-prompt pattern and a
human-decision pattern makes `auto_accept_if_safe` perform no TerminalAdapter
call and return false — the human-decision match overrides any safety
verdict. -/
theorem c2_human_decision_blocks_adapter (sess : Sessions) (llm : LlmOracle)
    (send1 send2 send3 : Bool) (ticket output : String)
    (hperm : is_permission_prompt output = true)
    (hhuman : needs_human_decision output = true) :
    auto_accept_if_safe sess llm send1 send2 send3 ticket output = (false, []) := by
  unfold auto_accept_if_safe
  cases hs : sess ticket with
  | none => rfl
  | some s =>
    cases hb : s.auto_accept
    · simp [hb]
    · simp [hb, hperm, hhuman]

/-- Claim C2, witness: a delta matching "[Y/n]" and "Type here to tell
Claude" at once is never auto-accepted. -/
theorem c2_witness :
    auto_accept_if_safe (fun _ => none) none true true true "t1" "[Y/n] Type here to tell Claude" = (false, []) :=
  c2_human_decision_blocks_adapter _ _ _ _ _ _ _ (by decide) (by decide)

/-- Claim C3: whenever the configured classification service fails (the call
raises: transport error or malformed response), `check_safety` — a total
function in this embedding, so it never raises across its boundary — returns
safe_to_continue = true with a non-empty reason (fail-open fallback). -/
theorem c3_classifier_failure_fail_open (e ticket output : String) :
    (check_safety (some (Except.error e)) ticket output).safe_to_continue = true
    ∧ (check_safety (some (Except.error e)) ticket output).reason ≠ "" := by
  refine ⟨rfl, ?_⟩
  intro h
  have h2 : ("Safety check failed: " ++ e).data = ("" : String).data := congrArg String.data h
  rw [String.data_append] at h2
  have h3 : ("Safety check failed: " : String).data ≠ [] := by decide
  rcases List.append_eq_nil.mp h2 with ⟨hl, _⟩
  exact h3 hl

/-- Claim C4, counterexample: on a transport failure of a configured service,
with a delta containing the destructive keyword "delete", the code answers
safe_to_continue = true, not the claimed blocklist verdict — the
exception-path fallback ignores the destructive-keyword check. -/
theorem c4_counterexample :
    ¬ ((check_safety (some (Except.error "connection reset")) "t1" "delete everything").safe_to_continue
        = !(specDangerous "delete everything")) := by decide

/-- Claim C4 (amended): the fallback heuristic computes needsClarification =
(delta contains "?" or "would you like", case-insensitive) on every failure
mode, but safeToContinue = (no destructive-keyword substring) only when no
classification service is configured; on a transport failure or malformed
response safeToContinue is unconditionally true. -/
theorem c4_fallback_heuristic (ticket output : String) :
    ((check_safety none ticket output).needs_clarification = specNeedsClarification output
      ∧ (check_safety none ticket output).safe_to_continue = !(specDangerous output))
    ∧ ∀ e : String,
        (check_safety (some (Except.error e)) ticket output).needs_clarification = specNeedsClarification output
        ∧ (check_safety (some (Except.error e)) ticket output).safe_to_continue = true :=
  ⟨⟨rfl, rfl⟩, fun _ => ⟨rfl, rfl⟩⟩

/-- Claim C5, counterexample: a poll tick whose stored snapshot is "hello\n"
and whose new snapshot is "hello\nworld" computes the delta "world" but
invokes the auto-accept pipeline with the full snapshot "hello\nworld" — not
with the delta. -/
theorem c5_counterexample :
    (stream_output_tick none true true true ⟨"hello\n", [], fun _ => none⟩ "t1" "hello\nworld").delta = "world"
    ∧ (stream_output_tick none true true true ⟨"hello\n", [], fun _ => none⟩ "t1" "hello\nworld").acceptInput
        = some "hello\nworld"
    ∧ (stream_output_tick none true true true ⟨"hello\n", [], fun _ => none⟩ "t1" "hello\nworld").acceptInput
        ≠ some ((stream_output_tick none true true true ⟨"hello\n", [], fun _ => none⟩ "t1" "hello\nworld").delta) := by
  decide

/-- Claim C5 (amended): on every poll tick whose whitespace-trimmed delta is
non-empty, the auto-accept pipeline is invoked with the session id and the
FULL new snapshot as its text input; the computed delta is what is appended
to the bounded buffer, fanned out to observers, and handed to the
attention-pass `check_safety`. -/
theorem c5_pipeline_gets_snapshot (llm : LlmOracle) (send1 send2 send3 : Bool)
    (st : TickState) (ticket cur : String)
    (hne : ¬ (cur = st.last_output))
    (hstrip : ¬ (pyStrip (if startswith cur st.last_output then strSlice cur (strLen st.last_output) else cur) = "")) :
    (stream_output_tick llm send1 send2 send3 st ticket cur).acceptInput = some cur
    ∧ (stream_output_tick llm send1 send2 send3 st ticket cur).delta
        = (if startswith cur st.last_output then strSlice cur (strLen st.last_output) else cur)
    ∧ (stream_output_tick llm send1 send2 send3 st ticket cur).state.buffer
        = appendBounded st.buffer (pySplitNl ((stream_output_tick llm send1 send2 send3 st ticket cur).delta))
    ∧ (∃ ev, (stream_output_tick llm send1 send2 send3 st ticket cur).event = some ev
        ∧ ev.content = (stream_output_tick llm send1 send2 send3 st ticket cur).delta)
    ∧ (stream_output_tick llm send1 send2 send3 st ticket cur).attnInput
        = (if (auto_accept_if_safe st.sess llm send1 send2 send3 ticket cur).1 then none
           else some ((stream_output_tick llm send1 send2 send3 st ticket cur).delta)) := by
  simp [stream_output_tick, hne, hstrip]

/-- Claim C5, witness: the amended theorem at the tick of the
counterexample. -/
theorem c5_witness :
    (stream_output_tick none true true true ⟨"hello\n", [], fun _ => none⟩ "t1" "hello\nworld").acceptInput
      = some "hello\nworld" :=
  (c5_pipeline_gets_snapshot none true true true ⟨"hello\n", [], fun _ => none⟩ "t1" "hello\nworld"
    (by decide) (by decide)).1

/-- Claim C6: the buffer update of the poller is FIFO-bounded: one bounded
append never exceeds MAX_BUFFER_LINES and only evicts from the oldest end
(the result is a suffix of old-buffer-plus-new-lines, so new lines sit at the
newest end); consequently a poll tick keeps any within-bound buffer within
bound. -/
theorem c6_buffer_fifo_bound :
    (∀ buf lines : List String,
        (appendBounded buf lines).length ≤ MAX_BUFFER_LINES
        ∧ ∃ dropped, dropped ++ appendBounded buf lines = buf ++ lines)
    ∧ ∀ (llm : LlmOracle) (send1 send2 send3 : Bool) (st : TickState) (ticket cur : String),
        st.buffer.length ≤ MAX_BUFFER_LINES →
        (stream_output_tick llm send1 send2 send3 st ticket cur).state.buffer.length ≤ MAX_BUFFER_LINES := by
  constructor
  · intro buf lines
    refine ⟨appendBounded_length_le buf lines,
      ⟨(buf ++ lines).take ((buf ++ lines).length - MAX_BUFFER_LINES), ?_⟩⟩
    simp [appendBounded, lastN, List.take_append_drop]
  · intro llm s1 s2 s3 st ticket cur h
    by_cases h1 : cur = st.last_output
    · simpa [stream_output_tick, h1] using h
    · by_cases h2 : pyStrip (if startswith cur st.last_output then strSlice cur (strLen st.last_output) else cur) = ""
      · simpa [stream_output_tick, h1, h2] using h
      · simp [stream_output_tick, h1, h2, appendBounded_length_le]

/-- Claim C7: on every poll tick the delta follows the
prefix-suffix/full-refresh rule — the suffix after the stored snapshot when
that is a prefix of the new snapshot, the whole new snapshot otherwise
(reading as "" when nothing changed) — and the stored snapshot is always
updated to the new snapshot, even when the trimmed delta is empty. -/
theorem c7_delta_and_snapshot (llm : LlmOracle) (send1 send2 send3 : Bool)
    (st : TickState) (ticket cur : String) :
    (stream_output_tick llm send1 send2 send3 st ticket cur).state.last_output = cur
    ∧ (stream_output_tick llm send1 send2 send3 st ticket cur).delta
        = (if startswith cur st.last_output then strSlice cur (strLen st.last_output) else cur) := by
  by_cases h : cur = st.last_output
  · subst h
    simp [stream_output_tick, startswith_self, strSlice_strLen]
  · by_cases h2 : pyStrip (if startswith cur st.last_output then strSlice cur (strLen st.last_output) else cur) = ""
    · simp [stream_output_tick, h, h2]
    · simp [stream_output_tick, h, h2]

/-- Claim C8, counterexample: a record whose specify flag is set is reverted
by the stage-update operation called with done = false — the flag is not
monotonic under every stage update. -/
theorem c8_counterexample :
    ((fun k => if k = "t1" then some { ticket := "t1", specify_done := true } else none : Sessions) "t1").map
        (fun s => s.specify_done) = some true
    ∧ ((update_stage (fun k => if k = "t1" then some { ticket := "t1", specify_done := true } else none)
        "t1" "specify" false).1 "t1").map (fun s => s.specify_done) = some false := by decide

/-- Claim C8 (amended): the six stage-completion flags are monotonic under
stage updates with done = true — any flag already true in any record stays
true after `update_stage` with done = true, for any stage name; a stage
update with done = false, however, sets the named flag back to false. -/
theorem c8_stage_monotone_done_true (sess : Sessions) (ticket stage u : String)
    (f : StageFlag) (s1 s2 : SessionStatus)
    (h1 : sess u = some s1)
    (h2 : (update_stage sess ticket stage true).1 u = some s2)
    (hf : getStage f s1 = true) :
    getStage f s2 = true := by
  by_cases hu : u = ticket
  · subst hu
    simp [update_stage, setSession, h1] at h2
    rcases h2 with rfl
    cases f <;> simp only [getStage] <;> split_ifs <;> simp_all [getStage]
  · simp [update_stage, setSession, hu, h1] at h2
    rcases h2 with rfl
    exact hf

/-- Claim C8, witness: a plan flag survives a specify update with
done = true. -/
theorem c8_witness :
    getStage StageFlag.plan_done { ticket := "t1", specify_done := true, plan_done := true } = true :=
  c8_stage_monotone_done_true
    (fun k => if k = "t1" then some { ticket := "t1", plan_done := true } else none)
    "t1" "specify" "t1" StageFlag.plan_done { ticket := "t1", plan_done := true }
    { ticket := "t1", specify_done := true, plan_done := true } (by decide) (by decide) (by decide)

/-- Claim C9: for a session id unknown to the registry, the stage update,
the metadata (title/description) update and the mode update all succeed
(answer ok) and lazily upsert a record for that id — the metadata update
creating exactly a default record carrying the written fields. -/
theorem c9_unknown_id_upsert (sess : Sessions) (t stage : String) (done : Bool)
    (title description mode : String) (h : sess t = none) :
    ((update_stage sess t stage done).1 t).isSome = true
    ∧ (update_stage sess t stage done).2 = true
    ∧ (set_linear_info sess t title description).1 t
        = some { ticket := t, linear_title := title, linear_description := description }
    ∧ (set_linear_info sess t title description).2 = true
    ∧ ((set_claude_mode sess t mode).1 t).isSome = true
    ∧ (set_claude_mode sess t mode).2.1 = true := by
  refine ⟨?_, rfl, ?_, rfl, ?_, rfl⟩
  · simp [update_stage, setSession]
  · simp [set_linear_info, setSession, h]
  · simp [set_claude_mode, setSession]

/-- Claim C9, witness: a stage update for the unknown id "t9" leaves a
record in the registry. -/
theorem c9_witness :
    ((update_stage (fun _ => none) "t9" "specify" true).1 "t9").isSome = true :=
  (c9_unknown_id_upsert (fun _ => none) "t9" "specify" true "Title" "Desc" "auto_accept" rfl).1

/-- Claim C10: after every call to the mode-setting operation the stored
record has auto_accept true exactly when claude_mode is AUTO_ACCEPT; the mode
string "auto_accept" selects AUTO_ACCEPT with auto_accept true, any other
string selects PLANNING with auto_accept false, and the call answers ok
echoing the mode. -/
theorem c10_mode_consistency (sess : Sessions) (t mode : String) :
    (set_claude_mode sess t mode).2 = (true, mode)
    ∧ ∃ s, (set_claude_mode sess t mode).1 t = some s
        ∧ (s.auto_accept = true ↔ s.claude_mode = ClaudeMode.AUTO_ACCEPT)
        ∧ s.claude_mode = (if mode = "auto_accept" then ClaudeMode.AUTO_ACCEPT else ClaudeMode.PLANNING)
        ∧ s.auto_accept = (if mode = "auto_accept" then true else false) := by
  refine ⟨rfl, ?_⟩
  by_cases hm : mode = "auto_accept"
  · refine ⟨{ (match sess t with | some s => s | none => { ticket := t }) with
        claude_mode := ClaudeMode.AUTO_ACCEPT, auto_accept := true }, ?_, ?_, ?_, ?_⟩
    · simp [set_claude_mode, setSession, hm]
    · simp
    · simp [hm]
    · simp [hm]
  · refine ⟨{ (match sess t with | some s => s | none => { ticket := t }) with
        claude_mode := ClaudeMode.PLANNING, auto_accept := false }, ?_, ?_, ?_, ?_⟩
    · simp [set_claude_mode, setSession, hm]
    · simp
    · simp [hm]
    · simp [hm]
